import Mathlib

/-!
Verification of the OmniTrade control-plane core (Observer / Gatekeeper /
Deterministic Simulator) against its specification.

The Python sources are shallowly embedded: Python `Decimal` quantities and
float-valued token counts are modelled as exact rationals (ℚ), dicts as
association lists that preserve insertion order (`setAssoc` replaces in
place and appends new keys at the end, like a Python dict), and fallible
code paths (trapped decimal exceptions) as `Option`.
-/

namespace OmniTrade

/-! ## Canonical values (journal `data` payloads, JSON-encodable state) -/

/-- A canonical self-describing value, modelling the JSON-encodable values
that appear in journal `data` maps and in the hashed state snapshot
(`json.dumps` with `sort_keys=True` and `DecimalEncoder`).  Python decimals
are carried exactly as rationals. -/
inductive CanonValue where
  | s : String → CanonValue
  | i : Int → CanonValue
  | q : ℚ → CanonValue
  | l : List CanonValue → CanonValue
  | m : List (String × CanonValue) → CanonValue

/-- A journal-entry `data` dictionary (`Dict[str, Any]`). -/
abbrev DataMap := List (String × CanonValue)

/-- Python-dict style update: replace the first binding of `k` in place,
or append `(k, v)` at the end when `k` is absent (insertion order). -/
def setAssoc {κ α : Type} [DecidableEq κ] (l : List (κ × α)) (k : κ) (v : α) :
    List (κ × α) :=
  match l with
  | [] => [(k, v)]
  | (k', v') :: rest => if k' = k then (k, v) :: rest else (k', v') :: setAssoc rest k v

/-- Models `str()` of a Python `Decimal` holding the exact value `q`
(defined for every rational; faithful for the decimal-representable values
the simulator produces at context precision 28). -/
def decStr (v : ℚ) : String :=
  if v.den = 1 then toString v.num
  else
    let sign := if v.num < 0 then ("-") else ("")
    let n := v.num.natAbs
    let ipart := n / v.den
    let scaled := n % v.den * 10 ^ 28 / v.den
    let ds := toString scaled
    let padded := String.mk (List.replicate (28 - ds.length) '0') ++ ds
    let trimmed := String.mk ((padded.data.reverse.dropWhile (fun c => c = '0')).reverse)
    sign ++ toString ipart ++ (".") ++ trimmed

/-- JSON string quoting (escape-free model; the keys and string values used
by the core contain no characters needing escapes). -/
def quoteStr (v : String) : String := ("\"") ++ v ++ ("\"")

/-- Key order used by `json.dumps(..., sort_keys=True)`: lexicographic on
the (string) keys. -/
def keyLE (a b : String × CanonValue) : Prop := a.1 ≤ b.1

/-- Strict version of `keyLE`, used to identify equal canonical forms. -/
def keyLT (a b : String × CanonValue) : Prop := a.1 < b.1

instance : DecidableRel keyLE := fun a b => inferInstanceAs (Decidable (a.1 ≤ b.1))

instance : IsTotal (String × CanonValue) keyLE := ⟨fun a b => le_total a.1 b.1⟩

instance : IsTrans (String × CanonValue) keyLE := ⟨fun _ _ _ h h' => le_trans h h'⟩

instance : IsAntisymm (String × CanonValue) keyLT :=
  ⟨fun _ _ h h' => absurd h' (lt_asymm h)⟩

/-- Sort the bindings of a dictionary by key, as `sort_keys=True` does. -/
def sortPairs (l : List (String × CanonValue)) : List (String × CanonValue) :=
  List.insertionSort keyLE l

mutual

/-- Recursively sort every map inside a canonical value by key.  Composed
with `serializeValue` this models `json.dumps(v, sort_keys=True)`. -/
def sortCanon : CanonValue → CanonValue
  | CanonValue.s v => CanonValue.s v
  | CanonValue.i n => CanonValue.i n
  | CanonValue.q v => CanonValue.q v
  | CanonValue.l items => CanonValue.l (sortCanonList items)
  | CanonValue.m es => CanonValue.m (sortPairs (sortCanonEntries es))

/-- Pointwise `sortCanon` over a JSON array. -/
def sortCanonList : List CanonValue → List CanonValue
  | [] => []
  | v :: rest => sortCanon v :: sortCanonList rest

/-- Pointwise `sortCanon` over the values of a dictionary. -/
def sortCanonEntries : List (String × CanonValue) → List (String × CanonValue)
  | [] => []
  | (k, v) :: rest => (k, sortCanon v) :: sortCanonEntries rest

end

mutual

/-- Serialize a canonical value in the layout of `json.dumps` (default
separators), with decimals rendered through `DecimalEncoder` as their
canonical decimal strings. -/
def serializeValue : CanonValue → String
  | CanonValue.s v => quoteStr v
  | CanonValue.i n => toString n
  | CanonValue.q v => quoteStr (decStr v)
  | CanonValue.l items => ("[") ++ serializeList items ++ ("]")
  | CanonValue.m es => ("\x7b") ++ serializeEntries es ++ ("\x7d")

/-- Comma-separated serialization of a JSON array body. -/
def serializeList : List CanonValue → String
  | [] => ""
  | [v] => serializeValue v
  | v :: rest => serializeValue v ++ (", ") ++ serializeList rest

/-- Comma-separated serialization of a JSON object body. -/
def serializeEntries : List (String × CanonValue) → String
  | [] => ""
  | [(k, v)] => quoteStr k ++ (": ") ++ serializeValue v
  | (k, v) :: rest => quoteStr k ++ (": ") ++ serializeValue v ++ (", ") ++ serializeEntries rest

end

/-! ## SHA-256 (hashlib.sha256, over 32-bit words modelled as Nat mod 2^32) -/

/-- 32-bit modular addition. -/
def add32 (a b : Nat) : Nat := (a + b) % 4294967296

/-- 32-bit right rotation (arguments kept below 2^32). -/
def rotr32 (n x : Nat) : Nat := ((x >>> n) ||| (x <<< (32 - n))) % 4294967296

/-- SHA-256 Ch function. -/
def chFn (x y z : Nat) : Nat := (x &&& y) ^^^ ((x ^^^ 4294967295) &&& z)

/-- SHA-256 Maj function. -/
def majFn (x y z : Nat) : Nat := (x &&& y) ^^^ (x &&& z) ^^^ (y &&& z)

/-- SHA-256 Σ₀. -/
def bsig0 (x : Nat) : Nat := rotr32 2 x ^^^ rotr32 13 x ^^^ rotr32 22 x

/-- SHA-256 Σ₁. -/
def bsig1 (x : Nat) : Nat := rotr32 6 x ^^^ rotr32 11 x ^^^ rotr32 25 x

/-- SHA-256 σ₀. -/
def ssig0 (x : Nat) : Nat := rotr32 7 x ^^^ rotr32 18 x ^^^ (x >>> 3)

/-- SHA-256 σ₁. -/
def ssig1 (x : Nat) : Nat := rotr32 17 x ^^^ rotr32 19 x ^^^ (x >>> 10)

/-- SHA-256 round constants. -/
def sha256K : List Nat :=
  [1116352408, 1899447441, 3049323471, 3921009573, 961987163, 1508970993,
   2453635748, 2870763221, 3624381080, 310598401, 607225278, 1426881987,
   1925078388, 2162078206, 2614888103, 3248222580, 3835390401, 4022224774,
   264347078, 604807628, 770255983, 1249150122, 1555081692, 1996064986,
   2554220882, 2821834349, 2952996808, 3210313671, 3336571891, 3584528711,
   113926993, 338241895, 666307205, 773529912, 1294757372, 1396182291,
   1695183700, 1986661051, 2177026350, 2456956037, 2730485921, 2820302411,
   3259730800, 3345764771, 3516065817, 3600352804, 4094571909, 275423344,
   430227734, 506948616, 659060556, 883997877, 958139571, 1322822218,
   1537002063, 1747873779, 1955562222, 2024104815, 2227730452, 2361852424,
   2428436474, 2756734187, 3204031479, 3329325298]

/-- SHA-256 initial hash values. -/
def sha256H0 : List Nat :=
  [1779033703, 3144134277, 1013904242, 2773480762, 1359893119, 2600822924, 528734635, 1541459225]

/-- Big-endian byte decomposition of `v` into `n` bytes. -/
def beBytes (n v : Nat) : List Nat := (List.range n).map (fun i => (v >>> (8 * (n - 1 - i))) % 256)

/-- Big-endian word from a list of bytes. -/
def wordOfBytes (bs : List Nat) : Nat := bs.foldl (fun a b => a * 256 + b) 0

/-- Split a byte list into 64-byte blocks. -/
def chunks64 (l : List Nat) : List (List Nat) :=
  if h : l = [] then [] else l.take 64 :: chunks64 (l.drop 64)
termination_by l.length
decreasing_by
  simp only [List.length_drop]
  exact Nat.sub_lt (List.length_pos.mpr h) (by norm_num)

/-- Split a byte list into 4-byte groups. -/
def chunks4 (l : List Nat) : List (List Nat) :=
  if h : l = [] then [] else l.take 4 :: chunks4 (l.drop 4)
termination_by l.length
decreasing_by
  simp only [List.length_drop]
  exact Nat.sub_lt (List.length_pos.mpr h) (by norm_num)

/-- Extend the 16 message words of a block to the 64-word schedule. -/
def schedule (ws : List Nat) : List Nat :=
  (List.range 48).foldl
    (fun w _ =>
      let nn := w.length
      let x := add32 (add32 (ssig1 (w.getD (nn - 2) 0)) (w.getD (nn - 7) 0))
        (add32 (ssig0 (w.getD (nn - 15) 0)) (w.getD (nn - 16) 0))
      w ++ [x])
    ws

/-- One SHA-256 compression step over a 64-byte block. -/
def sha256Compress (h : List Nat) (block : List Nat) : List Nat :=
  let ws := schedule ((chunks4 block).map wordOfBytes)
  let st0 := (h.getD 0 0, h.getD 1 0, h.getD 2 0, h.getD 3 0,
              h.getD 4 0, h.getD 5 0, h.getD 6 0, h.getD 7 0)
  let stz := (sha256K.zip ws).foldl
    (fun st kw =>
      match st with
      | (a, b, c, d, e, f, g, hh) =>
        let t1 := add32 hh (add32 (bsig1 e) (add32 (chFn e f g) (add32 kw.1 kw.2)))
        let t2 := add32 (bsig0 a) (majFn a b c)
        (add32 t1 t2, a, b, c, add32 d t1, e, f, g))
    st0
  match stz with
  | (a, b, c, d, e, f, g, hh) =>
    [add32 (h.getD 0 0) a, add32 (h.getD 1 0) b, add32 (h.getD 2 0) c, add32 (h.getD 3 0) d,
     add32 (h.getD 4 0) e, add32 (h.getD 5 0) f, add32 (h.getD 6 0) g, add32 (h.getD 7 0) hh]

/-- SHA-256 padding of a byte message. -/
def padMessage (msg : List Nat) : List Nat :=
  let len := msg.length
  let zeros := (64 - (len + 9) % 64) % 64
  msg ++ [128] ++ List.replicate zeros 0 ++ beBytes 8 (8 * len)

/-- SHA-256 digest (32 bytes) of a byte message. -/
def sha256Bytes (msg : List Nat) : List Nat :=
  ((chunks64 (padMessage msg)).foldl sha256Compress sha256H0).foldr
    (fun w acc => beBytes 4 w ++ acc) []

/-- Lower-case hex digit. -/
def hexChar (n : Nat) : Char := if n < 10 then Char.ofNat (48 + n) else Char.ofNat (87 + n)

/-- Two-digit lower-case hex rendering of a byte. -/
def byteHex (b : Nat) : String := String.mk [hexChar (b / 16), hexChar (b % 16)]

/-- UTF-8 bytes of a string. -/
def strBytes (s : String) : List Nat := s.toUTF8.toList.map (fun b => b.toNat)

/-- Hex SHA-256 of a string (`hashlib.sha256(x.encode()).hexdigest()`). -/
def sha256Hex (s : String) : String :=
  (sha256Bytes (strBytes s)).foldl (fun acc b => acc ++ byteHex b) ("")

/-! ## StateHasher (simulator/state_hasher.py) -/

/-- The state dictionary hashed by `StateHasher.hash_full_state`, built in
the source's insertion order; serialization sorts every level by key. -/
def stateValue (positions : List (String × ℚ)) (orders : List (String × DataMap))
    (system_status : String) (gap_count : Nat) : CanonValue :=
  CanonValue.m
    [(("positions"), CanonValue.m (positions.map (fun p => (p.1, CanonValue.q p.2)))),
     (("orders"), CanonValue.m (orders.map (fun o => (o.1, CanonValue.m o.2)))),
     (("system_status"), CanonValue.s system_status),
     (("gap_count"), CanonValue.i gap_count)]

/-- `StateHasher.hash_full_state`: SHA-256 over the canonical (key-sorted,
decimals-as-strings) serialization of the full state. -/
def hash_full_state (positions : List (String × ℚ)) (orders : List (String × DataMap))
    (system_status : String) (gap_count : Nat) : String :=
  sha256Hex (serializeValue (sortCanon (stateValue positions orders system_status gap_count)))

/-! ## TokenBucket (gatekeeper/rate_limiter.py)

Token counts, rate and capacity are Python floats; they are modelled as
exact rationals.  Timestamps are monotonic microseconds. -/

/-- The rate limiter state.  `tokens` starts at `capacity`. -/
structure TokenBucket where
  rate : ℚ
  capacity : ℚ
  tokens : ℚ
  last_update_ts : ℚ
deriving DecidableEq

/-- A freshly constructed bucket (`__init__`). -/
def TokenBucket.init (rate capacity : ℚ) (now : ℚ) : TokenBucket :=
  { rate := rate, capacity := capacity, tokens := capacity, last_update_ts := now }

/-- The refill step of `consume`: `tokens := min(capacity, tokens + Δs·rate)`
with `Δs = (now − last_update_ts) / 1_000_000`, then `last_update_ts := now`. -/
def TokenBucket.refill (b : TokenBucket) (now : ℚ) : TokenBucket :=
  let delta_seconds := (now - b.last_update_ts) / 1000000
  let new_tokens := delta_seconds * b.rate
  { b with tokens := min b.capacity (b.tokens + new_tokens), last_update_ts := now }

/-- `TokenBucket.consume`: refill, then deduct `k` and answer `true` when
`tokens ≥ k`, else answer `false` without deducting. -/
def TokenBucket.consume (b : TokenBucket) (k : ℚ) (now : ℚ) : TokenBucket × Bool :=
  let b' := b.refill now
  if b'.tokens ≥ k then ({ b' with tokens := b'.tokens - k }, true) else (b', false)

/-- Run a sequence of `consume(1)` calls at the given monotonic times,
counting the successful ones. -/
def runConsume1 (b : TokenBucket) : List ℚ → TokenBucket × Nat
  | [] => (b, 0)
  | t :: ts =>
    let r := TokenBucket.consume b 1 t
    let rest := runConsume1 r.1 ts
    (rest.1, (if r.2 then 1 else 0) + rest.2)

/-- The time of the last call in `l :: ts` (used to account the refill
budget of a run of consume calls). -/
def lastTime : ℚ → List ℚ → ℚ
  | l, [] => l
  | _, t :: ts => lastTime t ts

/-! ## ExecutionGuard (gatekeeper/guard.py) -/

/-- The Observer-owned keys the guard reads from the shared state store. -/
structure GuardEnv where
  observer_status : Option String
  observer_last_update : Option ℚ
deriving DecidableEq

/-- Outcome of `validate_intent`: success, or a raised
`RuntimeError("HARD_BLOCK: ...")`. -/
inductive ValidateResult where
  | ok : ValidateResult
  | hardBlock : String → ValidateResult
deriving DecidableEq

/-- How an optional status renders inside the f-string of check 2
(`None` for a missing key). -/
def optStatusRepr : Option String → String
  | some v => v
  | none => "None"

/-- `ExecutionGuard.validate_intent`: the four pre-flight checks in source
order (safe mode, Observer status, heartbeat freshness, rate limit); the
returned bucket is the guard's rate-limiter state after the call. -/
def validate_intent (in_safe_mode : Bool) (env : GuardEnv) (now : ℚ)
    (bucket : TokenBucket) : ValidateResult × TokenBucket :=
  if in_safe_mode then
    (ValidateResult.hardBlock ("HARD_BLOCK: System in SAFE_MODE"), bucket)
  else if env.observer_status ≠ some ("CONNECTED") then
    (ValidateResult.hardBlock (("HARD_BLOCK: Observer status is ") ++ optStatusRepr env.observer_status),
     bucket)
  else
    let last_seen := env.observer_last_update.getD 0
    if now - last_seen > 2000000 then
      (ValidateResult.hardBlock ("HARD_BLOCK: Observer heartbeat stale (>2s)"), bucket)
    else
      let r := TokenBucket.consume bucket 1 now
      if r.2 then (ValidateResult.ok, r.1)
      else (ValidateResult.hardBlock ("HARD_BLOCK: Rate limit exceeded"), r.1)

/-! ## CommandRegistry and Gatekeeper (gatekeeper/command_registry.py, engine.py) -/

/-- Order side (core/types.py `OrderSide`). -/
inductive OrderSide where
  | buy | sell
deriving DecidableEq

/-- Order type (core/types.py `OrderType`). -/
inductive OrderKind where
  | limit | market
deriving DecidableEq

/-- Time in force (core/types.py `TimeInForce`). -/
inductive TimeInForce where
  | gtc | ioc | fok
deriving DecidableEq

/-- A strategy's order intent (core/types.py `OrderIntent`); quantities
and prices are modelled as exact rationals. -/
structure OrderIntent where
  client_order_id : String
  symbol : String
  side : OrderSide
  order_type : OrderKind
  quantity : ℚ
  price : Option ℚ
  time_in_force : TimeInForce
  timestamp : Int
deriving DecidableEq

/-- `CommandRegistry.register`: insert and answer `true` when the id is
new; answer `false` (no mutation) for a duplicate.  The dict is modelled
as an insertion-ordered association list. -/
def registerIntent (reg : List (String × OrderIntent)) (intent : OrderIntent) :
    List (String × OrderIntent) × Bool :=
  if (reg.lookup intent.client_order_id).isSome then (reg, false)
  else (reg ++ [(intent.client_order_id, intent)], true)

/-- Result of `Gatekeeper.submit_intent`; `hardBlock` models the
`RuntimeError` propagating to the caller. -/
inductive SubmitResult where
  | accepted | duplicate
  | hardBlock : String → SubmitResult
deriving DecidableEq

/-- The Gatekeeper-owned state touched by `submit_intent`: the command
registry, the `gk:*` positions/orders namespaces, and the guard's latch
and rate limiter. -/
structure GatekeeperState where
  registry : List (String × OrderIntent)
  positions : List (String × ℚ)
  orders : List (String × DataMap)
  in_safe_mode : Bool
  bucket : TokenBucket

/-- `Gatekeeper.submit_intent`: idempotency check first, then guard
validation.  The state returned is the system state after the call,
including the case where `validate_intent` raised (the registration
performed before the raise is kept; nothing rolls it back). -/
def submit_intent (st : GatekeeperState) (env : GuardEnv) (now : ℚ)
    (intent : OrderIntent) : SubmitResult × GatekeeperState :=
  let r := registerIntent st.registry intent
  if r.2 = false then (SubmitResult.duplicate, { st with registry := r.1 })
  else
    let st1 := { st with registry := r.1 }
    let v := validate_intent st.in_safe_mode env now st.bucket
    match v.1 with
    | ValidateResult.hardBlock reason => (SubmitResult.hardBlock reason, { st1 with bucket := v.2 })
    | ValidateResult.ok => (SubmitResult.accepted, { st1 with bucket := v.2 })

/-! ## SimulatedStateStore and event handlers (simulator/state_store.py,
simulator/replay_engine.py) -/

/-- In-memory replay state store (`SimulatedStateStore`). -/
structure SimulatedStateStore where
  positions : List (String × ℚ)
  orders : List (String × DataMap)
  system_status : String
  gap_count : Nat
  last_seen_ts : Int

/-- The store at engine construction. -/
def initStore : SimulatedStateStore :=
  { positions := [], orders := [], system_status := ("CONNECTED"), gap_count := 0, last_seen_ts := 0 }

/-- `update_position`: `positions[symbol] = positions.get(symbol, 0) + delta`. -/
def SimulatedStateStore.update_position (st : SimulatedStateStore) (symbol : String)
    (delta : ℚ) : SimulatedStateStore :=
  let current := (st.positions.lookup symbol).getD 0
  { st with positions := setAssoc st.positions symbol (current + delta) }

/-- `set_order`: store (or overwrite) the latest report data for an id. -/
def SimulatedStateStore.set_order (st : SimulatedStateStore) (cloid : String)
    (d : DataMap) : SimulatedStateStore :=
  { st with orders := setAssoc st.orders cloid d }

/-- `set_system_status`. -/
def SimulatedStateStore.set_system_status (st : SimulatedStateStore) (v : String) :
    SimulatedStateStore :=
  { st with system_status := v }

/-- `increment_gap_count`. -/
def SimulatedStateStore.increment_gap_count (st : SimulatedStateStore) : SimulatedStateStore :=
  { st with gap_count := st.gap_count + 1 }

/-- `get_state_hash`. -/
def SimulatedStateStore.get_state_hash (st : SimulatedStateStore) : String :=
  hash_full_state st.positions st.orders st.system_status st.gap_count

/-- `data.get(k)`. -/
def dataLookup (d : DataMap) (k : String) : Option CanonValue := d.lookup k

/-- `data.get(k, dflt)` read as a string and compared against string
literals.  A present non-string value can never equal any of the literals
the engine compares against; it is modelled by a sentinel that is not a
Python string literal used by the core. -/
def getStrD (d : DataMap) (k dflt : String) : String :=
  match dataLookup d k with
  | some (CanonValue.s v) => v
  | some _ => "\x00nonstring"
  | none => dflt

/-- `Decimal(str(data.get(k, 0)))`: numbers convert exactly; a missing key
defaults to 0; any other payload raises a trapped `InvalidOperation`,
modelled as `none`. -/
def decimalOfVal : Option CanonValue → Option ℚ
  | none => some 0
  | some (CanonValue.i n) => some (n : ℚ)
  | some (CanonValue.q v) => some v
  | some _ => none

/-- `ReplayEngine._handle_execution_report` (mirrors
`StateController.process_execution_report` with exact decimals). -/
def handleExecutionReport (st : SimulatedStateStore) (d : DataMap) :
    Option SimulatedStateStore :=
  let status := getStrD d ("status") ("None")
  let symbol := getStrD d ("symbol") ("")
  let cloid := getStrD d ("client_order_id") ("")
  match decimalOfVal (dataLookup d ("filled_quantity")) with
  | none => none
  | some filled_qty =>
    let side := getStrD d ("side") ("BUY")
    let st1 := st.set_order cloid d
    if status = "PARTIAL_FILL" ∨ status = "FILLED" then
      let delta := if side = "BUY" then filled_qty else -filled_qty
      some (st1.update_position symbol delta)
    else some st1

/-- `ReplayEngine._handle_packet`: only packets that carry an embedded
execution report mutate state. -/
def handlePacket (st : SimulatedStateStore) (d : DataMap) : Option SimulatedStateStore :=
  let isExec := (dataLookup d ("status")).isSome &&
    (match dataLookup d ("source") with
     | some (CanonValue.s v) => v = "execution_report"
     | _ => false)
  if isExec then handleExecutionReport st d else some st

/-- `ReplayEngine._handle_status_change`. -/
def handleStatusChange (st : SimulatedStateStore) (d : DataMap) : SimulatedStateStore :=
  st.set_system_status (getStrD d ("status") ("CONNECTED"))

/-- `ReplayEngine._handle_gap`: increment the counter and promote to
DEGRADED once the incremented counter exceeds 5 (no check of the current
status). -/
def handleGap (st : SimulatedStateStore) (_d : DataMap) : SimulatedStateStore :=
  let st1 := st.increment_gap_count
  if st1.gap_count > 5 then st1.set_system_status ("DEGRADED") else st1

/-- `ReplayEngine._handle_error`: promote to HALT on a CRITICAL error. -/
def handleError (st : SimulatedStateStore) (d : DataMap) : SimulatedStateStore :=
  if getStrD d ("error_type") ("") = "CRITICAL" then st.set_system_status ("HALT") else st

/-! ## JournalReader and ReplayEngine (simulator/journal_reader.py,
simulator/replay_engine.py) -/

/-- A parsed journal record (core/types.py `JournalEntry`). -/
structure JEntry where
  event_type : String
  timestamp : Int
  data : DataMap

/-- `OrderedEvent`: a journal entry with its ordering metadata.  `index`
is the position of the record in the journal file. -/
structure OrderedEvent where
  index : Nat
  local_arrival_ts : Int
  sequence_id : Option Int
  source_priority : Nat
  event : JEntry

/-- `JournalReader.SOURCE_PRIORITY` with `DEFAULT_PRIORITY = 3`. -/
def sourcePriority (v : String) : Nat :=
  if v = "binance_ws" ∨ v = "binance_ccxt" ∨ v = "kite_ws" then 1
  else if v = "binance_rest" ∨ v = "kite_rest" then 2
  else 3

/-- An integer `sequence_id` payload field, when present. -/
def intOfVal : Option CanonValue → Option Int
  | some (CanonValue.i n) => some n
  | _ => none

/-- Build the `OrderedEvent` for the record at file position `i`. -/
def mkOrderedEvent (i : Nat) (e : JEntry) : OrderedEvent :=
  { index := i,
    local_arrival_ts := e.timestamp,
    sequence_id := intOfVal (dataLookup e.data ("sequence_id")),
    source_priority := sourcePriority (getStrD e.data ("source") ("unknown")),
    event := e }

/-- `OrderedEvent.ordering_key` comparison: lexicographic on
`(local_arrival_ts, sequence_id or 2^63, source_priority)`. -/
def orderingKeyLE (a b : OrderedEvent) : Bool :=
  let sa := a.sequence_id.getD ((2 : Int) ^ 63)
  let sb := b.sequence_id.getD ((2 : Int) ^ 63)
  if a.local_arrival_ts ≠ b.local_arrival_ts then decide (a.local_arrival_ts ≤ b.local_arrival_ts)
  else if sa ≠ sb then decide (sa ≤ sb)
  else decide (a.source_priority ≤ b.source_priority)

/-- Stable insertion: `x` goes after every already-placed element whose
key is ≤ its own, as Python's stable `list.sort` does. -/
def insertStable {α : Type} (le : α → α → Bool) (x : α) : List α → List α
  | [] => [x]
  | y :: ys => if le y x then y :: insertStable le x ys else x :: y :: ys

/-- Stable sort by a boolean "≤" test (extensionally Python `list.sort(key=...)`). -/
def stableSortBy {α : Type} (le : α → α → Bool) (l : List α) : List α :=
  l.foldl (fun acc x => insertStable le x acc) []

/-- `JournalReader.load` on already-parsed records: attach file indices and
ordering metadata, then sort by the deterministic ordering key. -/
def loadJournal (entries : List JEntry) : List OrderedEvent :=
  stableSortBy orderingKeyLE (entries.enum.map (fun p => mkOrderedEvent p.1 p.2))

/-- Verdict status (simulator/verdict.py). -/
inductive VerdictStatus where
  | pass | fail | error
deriving DecidableEq

/-- The first divergence found during replay (simulator/verdict.py). -/
structure DivergencePoint where
  event_index : Nat
  expected_hash : String
  actual_hash : String
  event_data : DataMap
  causal_chain : List Nat

/-- Final verdict of a replay run (simulator/verdict.py). -/
structure ReplayVerdict where
  status : VerdictStatus
  events_processed : Nat
  events_total : Nat
  config_hash : String
  rng_seed : Int
  divergence : Option DivergencePoint
  error_message : Option String

/-- Immutable run configuration (simulator/context.py `SimulatorConfig`). -/
structure SimulatorConfig where
  config_hash : String
  rng_seed : Int
  journal_path : String
  dependency_versions : List (String × String)

/-- `ReplayEngine._build_causal_chain`: up to 10 preceding file indices in
ascending order. -/
def buildCausalChain (idx : Nat) : List Nat :=
  List.range' (idx - min idx 10) (min idx 10)

/-- `ReplayEngine._process_single_event`: dispatch on the event type, then
stamp `last_seen_ts`; `none` models an exception escaping the handler. -/
def processSingleEvent (st : SimulatedStateStore) (ev : OrderedEvent) :
    Option SimulatedStateStore :=
  let e := ev.event
  let res :=
    if e.event_type = "PACKET" then handlePacket st e.data
    else if e.event_type = "STATUS_CHANGE" then some (handleStatusChange st e.data)
    else if e.event_type = "GAP" then some (handleGap st e.data)
    else if e.event_type = "ERROR" then some (handleError st e.data)
    else some st
  res.map (fun s => { s with last_seen_ts := e.timestamp })

/-- The replay loop of `ReplayEngine.run`: process one event at a time,
record its state hash under the event's file index, and stop with FAIL on
the first mismatch against the reference hash log (ERROR if a handler
raised).  Returns the verdict and the computed hash log. -/
def runLoop (cfg : SimulatorConfig) (ref : List (Nat × String)) (total : Nat) :
    SimulatedStateStore → List (Nat × String) → Nat → List OrderedEvent →
    ReplayVerdict × List (Nat × String)
  | _, hlog, processed, [] =>
    ({ status := VerdictStatus.pass, events_processed := processed, events_total := total,
       config_hash := cfg.config_hash, rng_seed := cfg.rng_seed,
       divergence := none, error_message := none }, hlog)
  | st, hlog, processed, ev :: rest =>
    match processSingleEvent st ev with
    | none =>
      ({ status := VerdictStatus.error, events_processed := processed, events_total := total,
         config_hash := cfg.config_hash, rng_seed := cfg.rng_seed, divergence := none,
         error_message := some (("Event ") ++ toString ev.index ++ (" failed")) }, hlog)
    | some st' =>
      let h := st'.get_state_hash
      let hlog' := setAssoc hlog ev.index h
      match ref.lookup ev.index with
      | some expected =>
        if h ≠ expected then
          ({ status := VerdictStatus.fail, events_processed := processed, events_total := total,
             config_hash := cfg.config_hash, rng_seed := cfg.rng_seed,
             divergence := some
               { event_index := ev.index, expected_hash := expected, actual_hash := h,
                 event_data := ev.event.data, causal_chain := buildCausalChain ev.index },
             error_message := none }, hlog')
        else runLoop cfg ref total st' hlog' (processed + 1) rest
      | none => runLoop cfg ref total st' hlog' (processed + 1) rest

/-- `ReplayEngine.run` over parsed journal contents and an optional
reference hash log: a pure function of (journal, config, reference). -/
def replayRun (cfg : SimulatorConfig) (entries : List JEntry)
    (ref : List (Nat × String)) : ReplayVerdict × List (Nat × String) :=
  runLoop cfg ref entries.length initStore [] 0 (loadJournal entries)

/-! ## Observer processing loop (src/observer.py, src/core/state.py) -/

/-- A standardized internal packet (core/types.py `Packet`), restricted to
the fields the processing loop reads. -/
structure ObsPacket where
  source : String
  topic : String
  sequence_id : Option Int
  drift_us : Int
  local_arrival_ts : Int

/-- The Observer-side state mutated by `_process_loop` and
`_transition_status` (tracker, rolling drift window, Redis-backed status,
gap counter, heartbeat, and the appended journal records). -/
structure ObserverModel where
  sequence_tracker : List (String × Int)
  drift_samples : List Int
  status : String
  gap_count : Nat
  last_update : Int
  journal : List JEntry

/-- `ObserverSystem._transition_status`: store update (status plus
heartbeat), then a STATUS_CHANGE journal entry. -/
def transitionStatus (m : ObserverModel) (new_status reason : String)
    (payload : DataMap) (now_epoch now_mono : Int) : ObserverModel :=
  { m with
    status := new_status,
    last_update := now_mono,
    journal := m.journal ++
      [{ event_type := ("STATUS_CHANGE"), timestamp := now_epoch,
         data := [(("status"), CanonValue.s new_status), (("reason"), CanonValue.s reason),
                  (("payload"), CanonValue.m payload)] }] }

/-- `ObserverState.update_drift`'s window update: append, then pop the
oldest sample once the window holds more than 50. -/
def driftPush (samples : List Int) (d : Int) : List Int :=
  let s := samples ++ [d]
  if s.length > 50 then s.tail else s

/-- Python `abs` on a rational (an if-based form of `|·|`). -/
def absQ (x : ℚ) : ℚ := if x < 0 then -x else x

/-- The rolling mean of the drift window (0 on an empty window), as the
exact rational `sum / length` (`Rat.divInt` is exact rational division). -/
def driftMean (samples : List Int) : ℚ :=
  if samples.length = 0 then 0
  else Rat.divInt (samples.foldl (fun a b => a + b) 0) (samples.length : Int)

/-- One iteration of `ObserverSystem._process_loop` on a dequeued packet:
sequence-gap detection (with the unconditional tracker store), drift
update, and the drift HALT predicate. -/
def processPacket (m : ObserverModel) (p : ObsPacket) (now_epoch now_mono : Int) :
    ObserverModel :=
  let m1 :=
    match p.sequence_id with
    | none => m
    | some sid =>
      let key := p.source ++ (":") ++ p.topic
      let m2 :=
        match m.sequence_tracker.lookup key with
        | none => m
        | some last =>
          let expected := last + 1
          if sid > expected then
            let gap_size := sid - expected
            let msg := ("Sequence Gap: Expected ") ++ toString expected ++ (", Got ") ++ toString sid
            let mg := { m with
              journal := m.journal ++
                [({ event_type := ("GAP"), timestamp := now_epoch,
                    data := [(("source"), CanonValue.s key), (("expected"), CanonValue.i expected),
                             (("got"), CanonValue.i sid)] } : JEntry)],
              gap_count := m.gap_count + 1 }
            if mg.status = "CONNECTED" then
              transitionStatus mg ("DEGRADED") msg [(("gap"), CanonValue.i gap_size)] now_epoch now_mono
            else mg
          else m
      { m2 with sequence_tracker := setAssoc m2.sequence_tracker key sid }
  let samples := driftPush m1.drift_samples p.drift_us
  let m3 := { m1 with drift_samples := samples }
  if absQ (driftMean samples) > 500000 then
    transitionStatus m3 ("HALT") ("Drift Violation")
      [(("mean_drift_us"), CanonValue.q (driftMean samples))] now_epoch now_mono
  else m3

/-- The GAP-type entries of a journal. -/
def gapEntries (journal : List JEntry) : List JEntry :=
  journal.filter (fun e => e.event_type = "GAP")

/-- The STATUS_CHANGE-type entries of a journal. -/
def statusEntries (journal : List JEntry) : List JEntry :=
  journal.filter (fun e => e.event_type = "STATUS_CHANGE")

/-! ## The status step relation of the claim set (Observer transitions and
Simulator GAP / ERROR replay handling) -/

/-- The events of the status step relation: the Observer-side transitions
reachable from `_process_loop` / `start` / `shutdown`, and the Simulator's
replay handling of GAP and ERROR journal entries. -/
inductive StatusEvent where
  | obsGapDetected
  | obsDriftViolation
  | obsCriticalFailure
  | obsShutdown
  | simGap
  | simError : Bool → StatusEvent
deriving DecidableEq

/-- A store holding only the status/gap-count projection (used to route
the simulator events through the source handlers). -/
def stateWith (s : String × Nat) : SimulatedStateStore :=
  { positions := [], orders := [], system_status := s.1, gap_count := s.2, last_seen_ts := 0 }

/-- One step of the system status (paired with the gap counter).
Observer cases transcribe observer.py lines 139–144 (gap: increment, then
DEGRADED only from CONNECTED) and the unconditional HALT transitions
(drift violation, critical stream failure, shutdown); simulator cases
delegate to `handleGap` / `handleError`. -/
def statusStep (s : String × Nat) (e : StatusEvent) : String × Nat :=
  match e with
  | StatusEvent.obsGapDetected =>
    if s.1 = "CONNECTED" then (("DEGRADED"), s.2 + 1) else (s.1, s.2 + 1)
  | StatusEvent.obsDriftViolation => (("HALT"), s.2)
  | StatusEvent.obsCriticalFailure => (("HALT"), s.2)
  | StatusEvent.obsShutdown => (("HALT"), s.2)
  | StatusEvent.simGap =>
    let st := handleGap (stateWith s) []
    (st.system_status, st.gap_count)
  | StatusEvent.simError c =>
    let st := handleError (stateWith s)
      (if c then [(("error_type"), CanonValue.s ("CRITICAL"))] else [])
    (st.system_status, st.gap_count)

/-- The status edges the specification allows within a session. -/
def allowedEdge (a b : String) : Prop :=
  (a = "CONNECTED" ∧ b = "DEGRADED") ∨ (a = "CONNECTED" ∧ b = "HALT") ∨
    (a = "DEGRADED" ∧ b = "HALT")

instance (a b : String) : Decidable (allowedEdge a b) := by
  unfold allowedEdge
  infer_instance

/-! ## The float-backed live position store (gatekeeper/state_controller.py)

`StateController._update_position` delegates to Redis `INCRBYFLOAT`, which
parses the stored value and the increment as binary long doubles, adds
them, and stores the result formatted with `%.17Lg` — a decimal string
with at most 17 significant digits.  `reprG17` captures exactly the values
such a store can hold. -/

/-- A rational is representable as a decimal numeral with at most 17
significant digits (the `%.17Lg` output domain of Redis INCRBYFLOAT). -/
def reprG17 (v : ℚ) : Prop :=
  ∃ m : ℤ, ∃ n : ℕ, m.natAbs < 10 ^ 17 ∧
    ((v = (m : ℚ) * (10 : ℚ) ^ n) ∨ (v = (m : ℚ) / (10 : ℚ) ^ n))

/-- A filled quantity legal at decimal context precision 28 whose exact
value needs all 28 significant digits. -/
def q28 : ℚ := (1234567890123456789012345679 : ℚ) / 10 ^ 28

/-- The execution-report payload of the C1 failing input: a single FILLED
BUY of `q28` on symbol X. -/
def c1Report : DataMap :=
  [(("status"), CanonValue.s ("FILLED")), (("source"), CanonValue.s ("execution_report")),
   (("symbol"), CanonValue.s ("X")), (("client_order_id"), CanonValue.s ("A")),
   (("side"), CanonValue.s ("BUY")), (("filled_quantity"), CanonValue.q q28)]

/-! ## Concrete inputs used by witnesses and counterexamples -/

instance : Inhabited JEntry := ⟨{ event_type := "", timestamp := 0, data := [] }⟩

/-- An empty Observer model at session start (status CONNECTED). -/
def obs0 : ObserverModel :=
  { sequence_tracker := [], drift_samples := [], status := ("CONNECTED"),
    gap_count := 0, last_update := 0, journal := [] }

/-- A packet on `(source=e, topic=t)` with the given sequence id. -/
def seqPkt (n : Int) : ObsPacket :=
  { source := ("e"), topic := ("t"), sequence_id := some n, drift_us := 0,
    local_arrival_ts := 0 }

/-- Observer state after processing sequence ids [1, 2]. -/
def c5Mid : ObserverModel :=
  List.foldl (fun m p => processPacket m p 100 200) obs0 [seqPkt 1, seqPkt 2]

/-- Observer state after processing sequence ids [1, 2, 5]. -/
def c5After : ObserverModel := processPacket c5Mid (seqPkt 5) 100 200

/-- Observer state whose tracker already saw id 5 on `e:t`. -/
def c6Model : ObserverModel :=
  { sequence_tracker := [(("e:t"), 5)], drift_samples := [], status := ("CONNECTED"),
    gap_count := 0, last_update := 0, journal := [] }

/-- The out-of-order packet (id 3 after id 5). -/
def c6Packet : ObsPacket := seqPkt 3

/-- The follow-up in-order packet (id 6) after the rewind. -/
def c6Next : ObsPacket := seqPkt 6

/-- A concrete order intent. -/
def c3Intent : OrderIntent :=
  { client_order_id := ("A1"), symbol := ("BTCUSDT"), side := OrderSide.buy,
    order_type := OrderKind.limit, quantity := 1, price := some 50000,
    time_in_force := TimeInForce.gtc, timestamp := 1000 }

/-- A Gatekeeper whose guard is latched in safe mode, with empty registry,
positions and orders. -/
def c3State : GatekeeperState :=
  { registry := [], positions := [], orders := [], in_safe_mode := true,
    bucket := TokenBucket.init 10 50 0 }

/-- A healthy observer environment (CONNECTED, fresh heartbeat). -/
def healthyEnv : GuardEnv :=
  { observer_status := some ("CONNECTED"), observer_last_update := some 0 }

/-- A single GAP journal record used for the replay-determinism witness. -/
def w2Entry : JEntry :=
  { event_type := ("GAP"), timestamp := 5,
    data := [(("source"), CanonValue.s ("e:t")), (("expected"), CanonValue.i 3),
             (("got"), CanonValue.i 5)] }

/-- A concrete simulator configuration. -/
def w2Cfg : SimulatorConfig :=
  { config_hash := ("abc123"), rng_seed := 42, journal_path := ("journal.raw"),
    dependency_versions := [] }

/-- A positions map built in one insertion order. -/
def w9Pos1 : List (String × ℚ) := [(("a"), 1), (("b"), 2)]

/-- The same positions map built in the opposite insertion order. -/
def w9Pos2 : List (String × ℚ) := [(("b"), 2), (("a"), 1)]

/-- A small orders map. -/
def w9Ord : List (String × DataMap) := [(("x"), [(("k"), CanonValue.i 1)])]

end OmniTrade

namespace OmniTrade

/-! ## Theorems -/

/-! ### C10 — consume of more than capacity always fails -/

/-- C10: for every request `k` strictly greater than the bucket's capacity,
`consume(k)` returns `false` and deducts nothing: the resulting bucket is
exactly the refilled bucket (the refill step caps the token count at
`capacity` before the comparison, so elapsed time is irrelevant). -/
theorem consume_rejects_overcapacity_request (b : TokenBucket) (k now : ℚ)
    (h : b.capacity < k) :
    TokenBucket.consume b k now = (TokenBucket.refill b now, false) := by
  have hle : (TokenBucket.refill b now).tokens ≤ b.capacity := by
    show min b.capacity _ ≤ b.capacity
    exact min_le_left _ _
  unfold TokenBucket.consume
  rw [if_neg (not_le.mpr (lt_of_le_of_lt hle h))]

/-- Witness for C10 at a concrete bucket: requesting 51 from a bucket of
capacity 50 fails without deduction. -/
theorem consume_rejects_overcapacity_request_witness :
    TokenBucket.consume (TokenBucket.init 10 50 0) 51 7 =
      (TokenBucket.refill (TokenBucket.init 10 50 0) 7, false) :=
  consume_rejects_overcapacity_request (TokenBucket.init 10 50 0) 51 7 (by decide)

/-! ### C2 — replay determinism -/

/-- C2: `ReplayEngine.run` is a pure function of (journal contents, config,
reference hash log): two runs over equal inputs produce the same verdict
and element-wise identical hash logs.  The embedded `replayRun` takes no
clock, entropy or ambient input, which is the formal content of the
claim. -/
theorem replay_deterministic (cfg₁ cfg₂ : SimulatorConfig) (e₁ e₂ : List JEntry)
    (r₁ r₂ : List (Nat × String)) (hc : cfg₁ = cfg₂) (he : e₁ = e₂) (hr : r₁ = r₂) :
    (replayRun cfg₁ e₁ r₁).1 = (replayRun cfg₂ e₂ r₂).1 ∧
    ∀ i : Nat, ((replayRun cfg₁ e₁ r₁).2).lookup i = ((replayRun cfg₂ e₂ r₂).2).lookup i := by
  subst hc; subst he; subst hr
  exact ⟨rfl, fun _ => rfl⟩

/-- Witness for C2 at a concrete one-record journal. -/
theorem replay_deterministic_witness :
    (replayRun w2Cfg [w2Entry] []).1 = (replayRun w2Cfg [w2Entry] []).1 ∧
    ∀ i : Nat, ((replayRun w2Cfg [w2Entry] []).2).lookup i =
      ((replayRun w2Cfg [w2Entry] []).2).lookup i :=
  replay_deterministic w2Cfg w2Cfg [w2Entry] [w2Entry] [] [] rfl rfl rfl

/-! ### C4 — status transition graph -/

/-- C4 counterexample: within the claim's own step relation, HALT is not
terminal.  From CONNECTED, a CRITICAL error event moves the status to
HALT; six subsequent GAP events push the gap counter past 5 and the
simulator's GAP handler then sets the status to DEGRADED — an edge
HALT → DEGRADED that the claim forbids. -/
theorem status_halt_not_terminal_counterexample :
    (List.foldl statusStep (("CONNECTED"), 0) [StatusEvent.simError true]).1 = "HALT" ∧
    (List.foldl statusStep (("CONNECTED"), 0)
      (StatusEvent.simError true :: List.replicate 6 StatusEvent.simGap)).1 = "DEGRADED" :=
  ⟨rfl, rfl⟩

/-- C4 amended: every step either leaves the status unchanged or follows an
allowed DAG edge, except the simulator GAP handler, which forces DEGRADED
whenever the incremented gap counter exceeds 5 regardless of the current
status (in particular HALT → DEGRADED is reachable in replay). -/
theorem status_step_edges (s : String × Nat) (e : StatusEvent)
    (h : s.1 = "CONNECTED" ∨ s.1 = "DEGRADED" ∨ s.1 = "HALT") :
    (statusStep s e).1 = s.1 ∨ allowedEdge s.1 (statusStep s e).1 ∨
      (e = StatusEvent.simGap ∧ (statusStep s e).1 = "DEGRADED" ∧ 5 < (statusStep s e).2) := by
  obtain ⟨st, cnt⟩ := s
  simp only at h
  cases e with
  | obsGapDetected =>
    rcases h with h | h | h <;> subst h <;>
      simp [statusStep, allowedEdge]
  | obsDriftViolation =>
    rcases h with h | h | h <;> subst h <;>
      simp [statusStep, allowedEdge]
  | obsCriticalFailure =>
    rcases h with h | h | h <;> subst h <;>
      simp [statusStep, allowedEdge]
  | obsShutdown =>
    rcases h with h | h | h <;> subst h <;>
      simp [statusStep, allowedEdge]
  | simGap =>
    by_cases hc : cnt + 1 > 5
    · rcases h with h | h | h <;> subst h <;>
        simp [statusStep, handleGap, stateWith, SimulatedStateStore.increment_gap_count,
          SimulatedStateStore.set_system_status, hc, allowedEdge]
    · rcases h with h | h | h <;> subst h <;>
        simp [statusStep, handleGap, stateWith, SimulatedStateStore.increment_gap_count,
          SimulatedStateStore.set_system_status, hc, allowedEdge]
  | simError c =>
    cases c <;> rcases h with h | h | h <;> subst h <;>
      simp [statusStep, handleError, stateWith, getStrD, dataLookup,
        SimulatedStateStore.set_system_status, allowedEdge]

/-- Witness for C4 (amended) at a concrete step: a drift violation from
CONNECTED. -/
theorem status_step_edges_witness :
    (statusStep (("CONNECTED"), 0) StatusEvent.obsDriftViolation).1 = ("CONNECTED", 0).1 ∨
    allowedEdge ("CONNECTED", 0).1 (statusStep (("CONNECTED"), 0) StatusEvent.obsDriftViolation).1 ∨
      (StatusEvent.obsDriftViolation = StatusEvent.simGap ∧
        (statusStep (("CONNECTED"), 0) StatusEvent.obsDriftViolation).1 = "DEGRADED" ∧
        5 < (statusStep (("CONNECTED"), 0) StatusEvent.obsDriftViolation).2) :=
  status_step_edges (("CONNECTED"), 0) StatusEvent.obsDriftViolation (Or.inl rfl)

/-! ### C6 — out-of-order packets rewind the tracker (code bug) -/

/-- C6: evaluating `_process_loop` at the failing input.  With the tracker
at 5 on key `e:t`, an out-of-order packet with id 3 is only warned about,
yet line 150's unconditional store rewinds the tracker to 3 — contradicting
the spec's "do NOT rewind the tracker".  The rewind then makes the next
in-order packet (id 6) produce a spurious GAP entry. -/
theorem out_of_order_rewinds_tracker :
    ((processPacket c6Model c6Packet 100 200).sequence_tracker.lookup ("e:t") = some 3) ∧
    (processPacket c6Model c6Packet 100 200).sequence_tracker ≠ c6Model.sequence_tracker ∧
    gapEntries (processPacket c6Model c6Packet 100 200).journal = [] ∧
    (gapEntries (processPacket (processPacket c6Model c6Packet 100 200) c6Next 100 200).journal).length = 1 := by
  refine ⟨rfl, ?_, rfl, rfl⟩
  decide

/-! ### C3 — HARD_BLOCK and system state -/

/-- C3 counterexample: a submission refused by the guard (safe mode is
latched) still mutates the command registry — the intent was registered
before validation and nothing rolls it back, so the registry differs after
the failed call. -/
theorem hard_block_mutates_registry_counterexample :
    (submit_intent c3State healthyEnv 0 c3Intent).1 =
      SubmitResult.hardBlock ("HARD_BLOCK: System in SAFE_MODE") ∧
    (submit_intent c3State healthyEnv 0 c3Intent).2.registry ≠ c3State.registry := by
  refine ⟨rfl, ?_⟩
  decide

/-- C3 amended: a submission that fails with HARD_BLOCK leaves positions,
orders and the safe-mode latch unchanged, but the command registry has
gained the intent (registration precedes guard validation and is not
rolled back); the guard's rate-limiter bucket may also have advanced. -/
theorem hard_block_keeps_positions_orders (st : GatekeeperState) (env : GuardEnv)
    (now : ℚ) (intent : OrderIntent) (r : String)
    (h : (submit_intent st env now intent).1 = SubmitResult.hardBlock r) :
    (submit_intent st env now intent).2.positions = st.positions ∧
    (submit_intent st env now intent).2.orders = st.orders ∧
    (submit_intent st env now intent).2.in_safe_mode = st.in_safe_mode ∧
    (submit_intent st env now intent).2.registry =
      st.registry ++ [(intent.client_order_id, intent)] := by
  have hreg : (registerIntent st.registry intent).2 = true →
      (registerIntent st.registry intent).1 =
        st.registry ++ [(intent.client_order_id, intent)] := by
    intro ht
    unfold registerIntent at ht ⊢
    by_cases hl : (st.registry.lookup intent.client_order_id).isSome
    · rw [if_pos hl] at ht
      exact absurd ht (by simp)
    · rw [if_neg hl]
  by_cases hdup : (registerIntent st.registry intent).2 = false
  · simp [submit_intent, hdup] at h
  · have htrue : (registerIntent st.registry intent).2 = true := by
      cases hb : (registerIntent st.registry intent).2
      · exact absurd hb hdup
      · rfl
    cases hv : (validate_intent st.in_safe_mode env now st.bucket).1 with
    | ok => simp [submit_intent, htrue, hv] at h
    | hardBlock reason =>
      simp [submit_intent, htrue, hv, hreg htrue]

/-- Witness for C3 (amended) at the concrete safe-mode refusal. -/
theorem hard_block_keeps_positions_orders_witness :
    (submit_intent c3State healthyEnv 0 c3Intent).2.positions = c3State.positions ∧
    (submit_intent c3State healthyEnv 0 c3Intent).2.orders = c3State.orders ∧
    (submit_intent c3State healthyEnv 0 c3Intent).2.in_safe_mode = c3State.in_safe_mode ∧
    (submit_intent c3State healthyEnv 0 c3Intent).2.registry =
      c3State.registry ++ [(c3Intent.client_order_id, c3Intent)] :=
  hard_block_keeps_positions_orders c3State healthyEnv 0 c3Intent
    ("HARD_BLOCK: System in SAFE_MODE") rfl

/-! ### C7 — validate_intent check order and short-circuiting -/

/-- C7: `validate_intent` runs exactly the four checks in the stated order
(safe-mode latch, Observer status = CONNECTED, heartbeat freshness
`now − last_update ≤ 2_000_000 μs`, token-bucket consume of 1); the first
failing check produces the HARD_BLOCK and later checks are not evaluated —
in particular the rate limiter is untouched (the returned bucket is the
input bucket) when any of the first three checks fails — and the call
succeeds iff all four checks pass. -/
theorem validate_intent_check_order (safe : Bool) (env : GuardEnv) (now : ℚ)
    (b : TokenBucket) :
    ((validate_intent safe env now b).1 = ValidateResult.ok ↔
      (safe = false ∧ env.observer_status = some ("CONNECTED") ∧
       now - env.observer_last_update.getD 0 ≤ 2000000 ∧
       (TokenBucket.consume b 1 now).2 = true)) ∧
    (safe = true →
      validate_intent safe env now b =
        (ValidateResult.hardBlock ("HARD_BLOCK: System in SAFE_MODE"), b)) ∧
    (safe = false → env.observer_status ≠ some ("CONNECTED") →
      validate_intent safe env now b =
        (ValidateResult.hardBlock
          (("HARD_BLOCK: Observer status is ") ++ optStatusRepr env.observer_status), b)) ∧
    (safe = false → env.observer_status = some ("CONNECTED") →
      2000000 < now - env.observer_last_update.getD 0 →
      validate_intent safe env now b =
        (ValidateResult.hardBlock ("HARD_BLOCK: Observer heartbeat stale (>2s)"), b)) ∧
    (safe = false → env.observer_status = some ("CONNECTED") →
      now - env.observer_last_update.getD 0 ≤ 2000000 →
      (TokenBucket.consume b 1 now).2 = false →
      validate_intent safe env now b =
        (ValidateResult.hardBlock ("HARD_BLOCK: Rate limit exceeded"),
         (TokenBucket.consume b 1 now).1)) ∧
    (safe = false → env.observer_status = some ("CONNECTED") →
      now - env.observer_last_update.getD 0 ≤ 2000000 →
      (TokenBucket.consume b 1 now).2 = true →
      validate_intent safe env now b =
        (ValidateResult.ok, (TokenBucket.consume b 1 now).1)) := by
  cases safe with
  | true =>
    exact ⟨by simp [validate_intent], fun _ => rfl,
      fun hfalse => absurd hfalse (by simp), fun hfalse => absurd hfalse (by simp),
      fun hfalse => absurd hfalse (by simp), fun hfalse => absurd hfalse (by simp)⟩
  | false =>
    by_cases hst : env.observer_status = some ("CONNECTED")
    · by_cases hhb : now - env.observer_last_update.getD 0 ≤ 2000000
      · cases hcons : (TokenBucket.consume b 1 now).2 with
        | true =>
          have hv : validate_intent false env now b =
              (ValidateResult.ok, (TokenBucket.consume b 1 now).1) := by
            simp [validate_intent, hst, hhb, not_lt.mpr hhb, hcons]
          refine ⟨?_, by simp, fun _ hne => absurd hst hne,
            fun _ _ hlt => absurd hhb (not_le.mpr hlt),
            fun _ _ _ hflag => absurd hflag (by simp), fun _ _ _ _ => hv⟩
          rw [hv]
          exact ⟨fun _ => ⟨rfl, hst, hhb, rfl⟩, fun _ => rfl⟩
        | false =>
          have hv : validate_intent false env now b =
              (ValidateResult.hardBlock ("HARD_BLOCK: Rate limit exceeded"),
               (TokenBucket.consume b 1 now).1) := by
            simp [validate_intent, hst, hhb, not_lt.mpr hhb, hcons]
          refine ⟨?_, by simp, fun _ hne => absurd hst hne,
            fun _ _ hlt => absurd hhb (not_le.mpr hlt),
            fun _ _ _ _ => hv, fun _ _ _ hflag => absurd hflag (by simp)⟩
          rw [hv]
          refine ⟨fun hcontra => by simp at hcontra, fun hc => absurd hc.2.2.2 (by simp)⟩
      · have hlt := not_le.mp hhb
        have hv : validate_intent false env now b =
            (ValidateResult.hardBlock ("HARD_BLOCK: Observer heartbeat stale (>2s)"), b) := by
          simp [validate_intent, hst, hlt]
        refine ⟨?_, by simp, fun _ hne => absurd hst hne, fun _ _ _ => hv,
          fun _ _ hle => absurd hle hhb, fun _ _ hle => absurd hle hhb⟩
        rw [hv]
        exact ⟨fun hcontra => by simp at hcontra, fun hc => absurd hc.2.2.1 hhb⟩
    · have hv : validate_intent false env now b =
          (ValidateResult.hardBlock
            (("HARD_BLOCK: Observer status is ") ++ optStatusRepr env.observer_status), b) := by
        simp [validate_intent, hst]
      refine ⟨?_, by simp, fun _ _ => hv, fun _ hconn => absurd hconn hst,
        fun _ hconn => absurd hconn hst, fun _ hconn => absurd hconn hst⟩
      rw [hv]
      exact ⟨fun hcontra => by simp at hcontra, fun hc => absurd hc.2.1 hst⟩

/-- Witness for C7 at a concrete healthy environment and fresh bucket: the
call succeeds and consumes exactly the one token. -/
theorem validate_intent_check_order_witness :
    validate_intent false healthyEnv 0 (TokenBucket.init 10 50 0) =
      (ValidateResult.ok, (TokenBucket.consume (TokenBucket.init 10 50 0) 1 0).1) := by
  refine (validate_intent_check_order false healthyEnv 0
    (TokenBucket.init 10 50 0)).2.2.2.2.2 rfl rfl (by simp [healthyEnv]) ?_
  simp [TokenBucket.consume, TokenBucket.refill, TokenBucket.init]

/-! ### C5 — sequence-gap handling -/

/-- C5 counterexample: processing ids [1, 2, 5] on one key produces exactly
one GAP journal entry, and that entry's data records `expected = 3` and
`got = 5` but carries no `gap` field at all (`gap = 2` is only logged and
attached to the DEGRADED transition payload), refuting the claim that the
GAP entry records `gap`. -/
theorem gap_entry_lacks_gap_field_counterexample :
    (gapEntries c5After.journal).length = 1 ∧
    ((gapEntries c5After.journal).headI.data.lookup ("gap")) = none ∧
    ((gapEntries c5After.journal).headI.data.lookup ("expected")) = some (CanonValue.i 3) ∧
    ((gapEntries c5After.journal).headI.data.lookup ("got")) = some (CanonValue.i 5) ∧
    c5After.gap_count = 1 ∧
    c5After.status = "DEGRADED" :=
  ⟨rfl, rfl, rfl, rfl, rfl, rfl⟩

/-- C5 amended: on a packet whose id `s` exceeds `last + 1` (and whose
drift sample does not trip the HALT predicate), the processor appends
exactly one GAP entry recording `expected = last + 1` and `got = s` (the
gap size `s − (last+1)` is not a field of the GAP entry; it is logged and,
when the DEGRADED transition fires, recorded in that transition's
payload), increments the gap counter by one, and, if the status is
CONNECTED, transitions it to DEGRADED. -/
theorem gap_detection_behavior (m : ObserverModel) (p : ObsPacket)
    (now_epoch now_mono : Int) (sid last : Int)
    (hs : p.sequence_id = some sid)
    (hl : m.sequence_tracker.lookup (p.source ++ (":") ++ p.topic) = some last)
    (hgt : last + 1 < sid)
    (hdrift : ¬ absQ (driftMean (driftPush m.drift_samples p.drift_us)) > 500000) :
    gapEntries (processPacket m p now_epoch now_mono).journal =
      gapEntries m.journal ++
        [({ event_type := ("GAP"), timestamp := now_epoch,
            data := [(("source"), CanonValue.s (p.source ++ (":") ++ p.topic)),
                     (("expected"), CanonValue.i (last + 1)),
                     (("got"), CanonValue.i sid)] } : JEntry)] ∧
    (processPacket m p now_epoch now_mono).gap_count = m.gap_count + 1 ∧
    (m.status = "CONNECTED" →
      (processPacket m p now_epoch now_mono).status = "DEGRADED" ∧
      statusEntries (processPacket m p now_epoch now_mono).journal =
        statusEntries m.journal ++
          [({ event_type := ("STATUS_CHANGE"), timestamp := now_epoch,
              data := [(("status"), CanonValue.s ("DEGRADED")),
                       (("reason"), CanonValue.s (("Sequence Gap: Expected ") ++
                          toString (last + 1) ++ (", Got ") ++ toString sid)),
                       (("payload"), CanonValue.m
                          [(("gap"), CanonValue.i (sid - (last + 1)))])] } : JEntry)]) ∧
    (m.status ≠ "CONNECTED" → (processPacket m p now_epoch now_mono).status = m.status) := by
  by_cases hconn : m.status = "CONNECTED"
  · refine ⟨?_, ?_, fun _ => ⟨?_, ?_⟩, fun hne => absurd hconn hne⟩ <;>
      simp [processPacket, hs, hl, hgt, hconn, hdrift, transitionStatus,
        gapEntries, statusEntries, List.filter_append]
  · refine ⟨?_, ?_, fun hc => absurd hc hconn, fun _ => ?_⟩ <;>
      simp [processPacket, hs, hl, hgt, hconn, hdrift, transitionStatus,
        gapEntries, statusEntries, List.filter_append]

/-- Witness for C5 (amended) on the [1, 2, 5] example: the third packet
increments the gap counter from 0 to 1 and moves the status to DEGRADED. -/
theorem gap_detection_behavior_witness :
    (processPacket c5Mid (seqPkt 5) 100 200).gap_count = c5Mid.gap_count + 1 ∧
    (processPacket c5Mid (seqPkt 5) 100 200).status = "DEGRADED" := by
  have h := gap_detection_behavior c5Mid (seqPkt 5) 100 200 5 2 rfl (by decide)
    (by decide) (by decide)
  exact ⟨h.2.1, (h.2.2.1 rfl).1⟩

/-! ### C8 — token bucket invariants -/

/-- `consume` never changes rate or capacity, and stamps the call time. -/
theorem consume_fields (b : TokenBucket) (k now : ℚ) :
    ((TokenBucket.consume b k now).1).rate = b.rate ∧
    ((TokenBucket.consume b k now).1).capacity = b.capacity ∧
    ((TokenBucket.consume b k now).1).last_update_ts = now := by
  unfold TokenBucket.consume TokenBucket.refill
  dsimp only
  split <;> exact ⟨rfl, rfl, rfl⟩

/-- Evaluation of a successful `consume`: the refilled count was at least
`k` and exactly `k` was deducted. -/
theorem consume_true_eq (b : TokenBucket) (k t : ℚ)
    (h : (TokenBucket.consume b k t).2 = true) :
    k ≤ min b.capacity (b.tokens + (t - b.last_update_ts) / 1000000 * b.rate) ∧
    ((TokenBucket.consume b k t).1).tokens =
      min b.capacity (b.tokens + (t - b.last_update_ts) / 1000000 * b.rate) - k := by
  unfold TokenBucket.consume TokenBucket.refill at h ⊢
  by_cases h1 : min b.capacity (b.tokens + (t - b.last_update_ts) / 1000000 * b.rate) ≥ k
  · exact ⟨h1, by rw [if_pos h1]⟩
  · rw [if_neg h1] at h
    exact absurd h (by simp)

/-- Evaluation of a failed `consume`: the refilled count was below `k` and
nothing was deducted. -/
theorem consume_false_eq (b : TokenBucket) (k t : ℚ)
    (h : (TokenBucket.consume b k t).2 = false) :
    ((TokenBucket.consume b k t).1).tokens =
      min b.capacity (b.tokens + (t - b.last_update_ts) / 1000000 * b.rate) ∧
    ¬ k ≤ min b.capacity (b.tokens + (t - b.last_update_ts) / 1000000 * b.rate) := by
  unfold TokenBucket.consume TokenBucket.refill at h ⊢
  by_cases h1 : min b.capacity (b.tokens + (t - b.last_update_ts) / 1000000 * b.rate) ≥ k
  · rw [if_pos h1] at h
    exact absurd h (by simp)
  · exact ⟨by rw [if_neg h1], h1⟩

/-- After any `consume` of a nonnegative amount, `tokens ≤ capacity`. -/
theorem consume_tokens_le_capacity (b : TokenBucket) (k now : ℚ) (hk : 0 ≤ k) :
    ((TokenBucket.consume b k now).1).tokens ≤ b.capacity := by
  cases hb2 : (TokenBucket.consume b k now).2 with
  | true =>
    obtain ⟨_, htok⟩ := consume_true_eq b k now hb2
    have := min_le_left b.capacity
      (b.tokens + (now - b.last_update_ts) / 1000000 * b.rate)
    rw [htok]; linarith
  | false =>
    obtain ⟨htok, _⟩ := consume_false_eq b k now hb2
    rw [htok]
    exact min_le_left _ _

/-- The last element of `l :: ts` is `l` itself or a member of `ts`. -/
theorem lastTime_cases (l : ℚ) (ts : List ℚ) :
    lastTime l ts = l ∨ lastTime l ts ∈ ts := by
  induction ts generalizing l with
  | nil => exact Or.inl rfl
  | cons t ts ih =>
    rcases ih t with h | h
    · exact Or.inr (by rw [show lastTime l (t :: ts) = lastTime t ts from rfl, h]; exact List.mem_cons_self _ _)
    · exact Or.inr (List.mem_cons_of_mem t h)

/-- Potential bound for a run of `consume(1)` calls: the number of
successes is at most the current potential `min capacity (max tokens 0)`
plus the refill budget accumulated between the bucket's last update and
the final call. -/
theorem runConsume1_le_potential (ts : List ℚ) : ∀ b : TokenBucket,
    0 ≤ b.rate → 0 ≤ b.capacity →
    List.Chain' (fun a c : ℚ => a ≤ c) (b.last_update_ts :: ts) →
    ((runConsume1 b ts).2 : ℚ) ≤
      min b.capacity (max b.tokens 0) +
        b.rate * (lastTime b.last_update_ts ts - b.last_update_ts) / 1000000 := by
  induction ts with
  | nil =>
    intro b hr hc _
    have h0 : (0:ℚ) ≤ min b.capacity (max b.tokens 0) := le_min hc (le_max_right _ _)
    simp only [runConsume1, lastTime, Nat.cast_zero, sub_self, mul_zero, zero_div, add_zero]
    exact h0
  | cons t ts ih =>
    intro b hr hc hchain
    obtain ⟨hbt, htail⟩ := List.chain'_cons.mp hchain
    have hf := consume_fields b 1 t
    have hih := ih (TokenBucket.consume b 1 t).1 (by rw [hf.1]; exact hr)
      (by rw [hf.2.1]; exact hc) (by rw [hf.2.2]; exact htail)
    rw [hf.1, hf.2.1, hf.2.2] at hih
    have hsplit : b.rate * (lastTime t ts - b.last_update_ts) / 1000000 =
        b.rate * (t - b.last_update_ts) / 1000000 +
          b.rate * (lastTime t ts - t) / 1000000 := by ring
    have hmaxb := le_max_left b.tokens (0:ℚ)
    have hminsum := min_add_add_right b.capacity (max b.tokens 0)
      (b.rate * (t - b.last_update_ts) / 1000000)
    have hR : (0:ℚ) ≤ b.rate * (t - b.last_update_ts) / 1000000 :=
      div_nonneg (mul_nonneg hr (by linarith)) (by norm_num)
    cases hb2 : (TokenBucket.consume b 1 t).2 with
    | true =>
      obtain ⟨hk, htok⟩ := consume_true_eq b 1 t hb2
      set x := min b.capacity (b.tokens + (t - b.last_update_ts) / 1000000 * b.rate) with hx
      have hxcap : x ≤ b.capacity := min_le_left _ _
      have hxle : x ≤ b.tokens + b.rate * (t - b.last_update_ts) / 1000000 := by
        have h1 : x ≤ b.tokens + (t - b.last_update_ts) / 1000000 * b.rate :=
          min_le_right _ _
        have h2 : (t - b.last_update_ts) / 1000000 * b.rate =
            b.rate * (t - b.last_update_ts) / 1000000 := by ring
        linarith [h2 ▸ h1]
      have hcount : (runConsume1 b (t :: ts)).2 =
          1 + (runConsume1 (TokenBucket.consume b 1 t).1 ts).2 := by
        simp [runConsume1, hb2]
      rw [htok] at hih
      have hmax : max (x - 1) (0:ℚ) = x - 1 := max_eq_left (by linarith)
      have hmin2 : min b.capacity (x - 1) = x - 1 := min_eq_right (by linarith)
      rw [hmax, hmin2] at hih
      have hxbound : x ≤ min b.capacity (max b.tokens 0) +
          b.rate * (t - b.last_update_ts) / 1000000 := by
        rw [← hminsum]
        exact le_min (by linarith) (by linarith)
      show ((runConsume1 b (t :: ts)).2 : ℚ) ≤ min b.capacity (max b.tokens 0) +
        b.rate * (lastTime t ts - b.last_update_ts) / 1000000
      rw [hcount, hsplit]
      push_cast
      linarith
    | false =>
      obtain ⟨htok, _⟩ := consume_false_eq b 1 t hb2
      set x := min b.capacity (b.tokens + (t - b.last_update_ts) / 1000000 * b.rate) with hx
      have hxcap : x ≤ b.capacity := min_le_left _ _
      have hxle : x ≤ b.tokens + b.rate * (t - b.last_update_ts) / 1000000 := by
        have h1 : x ≤ b.tokens + (t - b.last_update_ts) / 1000000 * b.rate :=
          min_le_right _ _
        have h2 : (t - b.last_update_ts) / 1000000 * b.rate =
            b.rate * (t - b.last_update_ts) / 1000000 := by ring
        linarith [h2 ▸ h1]
      have hcount : (runConsume1 b (t :: ts)).2 =
          (runConsume1 (TokenBucket.consume b 1 t).1 ts).2 := by
        simp [runConsume1, hb2]
      rw [htok] at hih
      have hxbound : min b.capacity (max x 0) ≤ min b.capacity (max b.tokens 0) +
          b.rate * (t - b.last_update_ts) / 1000000 := by
        rw [← hminsum]
        refine le_min ?_ ?_
        · have := min_le_left b.capacity (max x 0)
          linarith
        · have h1 : max x (0:ℚ) ≤ max b.tokens 0 +
              b.rate * (t - b.last_update_ts) / 1000000 := by
            apply max_le
            · linarith
            · have := le_max_right b.tokens (0:ℚ)
              linarith
          have := min_le_right b.capacity (max x 0)
          linarith
      show ((runConsume1 b (t :: ts)).2 : ℚ) ≤ min b.capacity (max b.tokens 0) +
        b.rate * (lastTime t ts - b.last_update_ts) / 1000000
      rw [hcount, hsplit]
      linarith

/-- C8: after every `consume` of a nonnegative request the token count is
at most `capacity` (first conjunct), and over any run of `consume(1)`
calls at non-decreasing monotonic times that all fall inside a window
`[T, T + Δ·10^6 μs]` (Δ in seconds), the number of successful consumes is
at most `capacity + rate·Δ` (second conjunct). -/
theorem token_bucket_invariants :
    (∀ (b : TokenBucket) (k now : ℚ), 0 ≤ k →
      ((TokenBucket.consume b k now).1).tokens ≤ b.capacity) ∧
    (∀ (b : TokenBucket) (ts : List ℚ) (T Δ : ℚ),
      0 ≤ b.rate → 0 ≤ b.capacity → 0 ≤ Δ →
      List.Chain' (fun a c : ℚ => a ≤ c) (b.last_update_ts :: ts) →
      (∀ t ∈ ts, T ≤ t ∧ t ≤ T + Δ * 1000000) →
      ((runConsume1 b ts).2 : ℚ) ≤ b.capacity + b.rate * Δ) := by
  refine ⟨consume_tokens_le_capacity, ?_⟩
  intro b ts T Δ hr hc hΔ hchain hwin
  have hrΔ : (0:ℚ) ≤ b.rate * Δ := mul_nonneg hr hΔ
  cases ts with
  | nil =>
    simp only [runConsume1, Nat.cast_zero]
    linarith
  | cons t ts =>
    obtain ⟨hbt, htail⟩ := List.chain'_cons.mp hchain
    have hf := consume_fields b 1 t
    have hpot := runConsume1_le_potential ts (TokenBucket.consume b 1 t).1
      (by rw [hf.1]; exact hr) (by rw [hf.2.1]; exact hc) (by rw [hf.2.2]; exact htail)
    rw [hf.1, hf.2.1, hf.2.2] at hpot
    have ht_win := hwin t (List.mem_cons_self t ts)
    have hlast_le : lastTime t ts ≤ T + Δ * 1000000 := by
      rcases lastTime_cases t ts with h | h
      · rw [h]; exact ht_win.2
      · exact (hwin _ (List.mem_cons_of_mem t h)).2
    have hbudget : b.rate * (lastTime t ts - t) / 1000000 ≤ b.rate * Δ := by
      have h1 : b.rate * (lastTime t ts - t) ≤ b.rate * (Δ * 1000000) :=
        mul_le_mul_of_nonneg_left (by linarith [ht_win.1]) hr
      have h2 : b.rate * (Δ * 1000000) / 1000000 = b.rate * Δ := by ring
      calc b.rate * (lastTime t ts - t) / 1000000
          ≤ b.rate * (Δ * 1000000) / 1000000 :=
            (div_le_div_iff_of_pos_right (by norm_num : (0:ℚ) < 1000000)).mpr h1
        _ = b.rate * Δ := h2
    cases hb2 : (TokenBucket.consume b 1 t).2 with
    | true =>
      obtain ⟨hk, htok⟩ := consume_true_eq b 1 t hb2
      set x := min b.capacity (b.tokens + (t - b.last_update_ts) / 1000000 * b.rate) with hx
      have hxcap : x ≤ b.capacity := min_le_left _ _
      have hcount : (runConsume1 b (t :: ts)).2 =
          1 + (runConsume1 (TokenBucket.consume b 1 t).1 ts).2 := by
        simp [runConsume1, hb2]
      rw [htok] at hpot
      have hmax : max (x - 1) (0:ℚ) = x - 1 := max_eq_left (by linarith)
      have hmin2 : min b.capacity (x - 1) = x - 1 := min_eq_right (by linarith)
      rw [hmax, hmin2] at hpot
      rw [hcount]
      push_cast
      linarith
    | false =>
      obtain ⟨htok, _⟩ := consume_false_eq b 1 t hb2
      set x := min b.capacity (b.tokens + (t - b.last_update_ts) / 1000000 * b.rate) with hx
      have hcount : (runConsume1 b (t :: ts)).2 =
          (runConsume1 (TokenBucket.consume b 1 t).1 ts).2 := by
        simp [runConsume1, hb2]
      rw [htok] at hpot
      have hbound : min b.capacity (max x 0) ≤ b.capacity :=
        min_le_left _ _
      rw [hcount]
      linarith

/-- Witness for C8: a fresh bucket (rate 10, capacity 50), one consume at
time 0 inside the window [0, 10^6] (Δ = 1 s); at most 60 successes. -/
theorem token_bucket_invariants_witness :
    ((TokenBucket.consume (TokenBucket.init 10 50 0) 1 0).1).tokens ≤
      (TokenBucket.init 10 50 0).capacity ∧
    ((runConsume1 (TokenBucket.init 10 50 0) [0]).2 : ℚ) ≤
      (TokenBucket.init 10 50 0).capacity + (TokenBucket.init 10 50 0).rate * 1 := by
  constructor
  · exact token_bucket_invariants.1 (TokenBucket.init 10 50 0) 1 0 (by decide)
  · refine token_bucket_invariants.2 (TokenBucket.init 10 50 0) [0] 0 1
      (by decide) (by decide) (by decide) ?_ ?_
    · simp [TokenBucket.init]
    · intro t ht
      simp only [List.mem_singleton] at ht
      subst ht
      refine ⟨le_refl 0, ?_⟩
      simp

/-! ### C1 — exact position accumulation vs the float-backed live store -/

/-- C1 (evaluation at the failing input): the exact decimal fold — the
update the claim and spec mandate, as mirrored by the simulator path —
puts `positions[X] = q28` after one FILLED BUY of `q28`; and `q28` (a legal
precision-28 quantity) is not representable with 17 significant decimal
digits, so the live `StateController._update_position` path through Redis
INCRBYFLOAT (`%.17Lg` long-double formatting, captured by `reprG17`)
cannot hold the exact sum: the claim's "exactly, with no floating-point
drift" fails on the float-backed store. -/
theorem exact_sum_not_float_representable :
    ((handleExecutionReport initStore c1Report).map
      (fun st => st.positions.lookup ("X"))) = some (some q28) ∧
    ¬ reprG17 q28 := by
  constructor
  · simp [handleExecutionReport, initStore, c1Report, getStrD, dataLookup, decimalOfVal,
      SimulatedStateStore.set_order, SimulatedStateStore.update_position, setAssoc,
      List.lookup]
  · rintro ⟨m, n, hm, hq | hq⟩
    · simp only [q28] at hq
      have h28 : ((10:ℚ))^28 ≠ 0 := pow_ne_zero _ (by norm_num)
      have h1 : (1234567890123456789012345679 : ℚ) = (m:ℚ) * (10:ℚ)^n * 10^28 := by
        field_simp at hq
        linarith [hq]
      have h2 : (1234567890123456789012345679 : ℤ) = m * 10 ^ (n + 28) := by
        have hcast : ((1234567890123456789012345679 : ℤ) : ℚ) =
            ((m * 10 ^ (n + 28) : ℤ) : ℚ) := by
          push_cast
          rw [pow_add]
          linarith [h1]
        exact_mod_cast hcast
      have hdvd : (10 : ℤ) ∣ 1234567890123456789012345679 := by
        rw [h2]
        exact Dvd.dvd.mul_left (dvd_pow_self 10 (by omega : n + 28 ≠ 0)) m
      omega
    · simp only [q28] at hq
      have h1 : (1234567890123456789012345679 : ℚ) * (10:ℚ)^n = (m:ℚ) * 10^28 := by
        field_simp at hq
        linarith [hq]
      have h2 : (1234567890123456789012345679 : ℤ) * 10 ^ n = m * 10 ^ 28 := by
        exact_mod_cast h1
      by_cases hn : n < 28
      · have h3 : (1234567890123456789012345679 : ℤ) * 10 ^ n =
            m * 10 ^ (28 - n) * 10 ^ n := by
          rw [mul_assoc, ← pow_add]
          have heq : 28 - n + n = 28 := by omega
          rw [heq]
          exact h2
        have h4 : (1234567890123456789012345679 : ℤ) = m * 10 ^ (28 - n) :=
          mul_right_cancel₀ (pow_ne_zero n (by norm_num : (10:ℤ) ≠ 0)) h3
        have hdvd : (10:ℤ) ∣ 1234567890123456789012345679 := by
          rw [h4]
          exact Dvd.dvd.mul_left (dvd_pow_self 10 (by omega : 28 - n ≠ 0)) m
        omega
      · push_neg at hn
        have h3 : (1234567890123456789012345679 : ℤ) * 10 ^ (n - 28) * 10 ^ 28 =
            m * 10 ^ 28 := by
          rw [mul_assoc, ← pow_add]
          have heq : n - 28 + 28 = n := by omega
          rw [heq]
          exact h2
        have h4 : m = (1234567890123456789012345679 : ℤ) * 10 ^ (n - 28) :=
          (mul_right_cancel₀ (pow_ne_zero 28 (by norm_num : (10:ℤ) ≠ 0)) h3).symm
        have h5 : m.natAbs = 1234567890123456789012345679 * 10 ^ (n - 28) := by
          rw [h4, Int.natAbs_mul]
          norm_num [Int.natAbs_pow]
        have h6 : 10 ^ 17 ≤ m.natAbs := by
          rw [h5]
          have hp : 1 ≤ 10 ^ (n - 28) := Nat.one_le_pow _ _ (by norm_num)
          calc (10:ℕ) ^ 17 ≤ 1234567890123456789012345679 := by norm_num
            _ = 1234567890123456789012345679 * 1 := (Nat.mul_one _).symm
            _ ≤ 1234567890123456789012345679 * 10 ^ (n - 28) :=
                Nat.mul_le_mul_left _ hp
        exact absurd hm (not_lt.mpr h6)

/-! ### C9 — canonical state hashing -/

/-- The key-sort of the canonical encoder permutes the bindings. -/
theorem sortPairs_perm (l : List (String × CanonValue)) : (sortPairs l).Perm l :=
  List.perm_insertionSort keyLE l

/-- The key-sort of the canonical encoder sorts by `keyLE`. -/
theorem sortPairs_sorted (l : List (String × CanonValue)) :
    List.Sorted keyLE (sortPairs l) :=
  List.sorted_insertionSort keyLE l

/-- A key-sorted binding list with pairwise-distinct keys is strictly
sorted by key. -/
theorem sorted_keyLT_of_nodup {l : List (String × CanonValue)}
    (hs : List.Sorted keyLE l) (hn : (l.map Prod.fst).Nodup) :
    List.Sorted keyLT l := by
  have hne : List.Pairwise (fun a b : String × CanonValue => a.1 ≠ b.1) l :=
    List.pairwise_map.mp hn
  exact (hs.and hne).imp (fun h => lt_of_le_of_ne h.1 h.2)

/-- Two binding lists that hold the same set of bindings (distinct keys)
have identical key-sorted forms. -/
theorem sortPairs_eq_of_perm {l₁ l₂ : List (String × CanonValue)}
    (hp : l₁.Perm l₂) (hn : (l₁.map Prod.fst).Nodup) :
    sortPairs l₁ = sortPairs l₂ := by
  have hn₂ : (l₂.map Prod.fst).Nodup := ((hp.map Prod.fst).nodup_iff).mp hn
  have hs₁ : List.Sorted keyLT (sortPairs l₁) :=
    sorted_keyLT_of_nodup (sortPairs_sorted l₁)
      (((sortPairs_perm l₁).map Prod.fst).nodup_iff.mpr hn)
  have hs₂ : List.Sorted keyLT (sortPairs l₂) :=
    sorted_keyLT_of_nodup (sortPairs_sorted l₂)
      (((sortPairs_perm l₂).map Prod.fst).nodup_iff.mpr hn₂)
  exact List.eq_of_perm_of_sorted
    ((sortPairs_perm l₁).trans (hp.trans (sortPairs_perm l₂).symm)) hs₁ hs₂

/-- `sortCanonEntries` is the pointwise map of `sortCanon` over values. -/
theorem sortCanonEntries_eq_map (l : List (String × CanonValue)) :
    sortCanonEntries l = l.map (fun kv => (kv.1, sortCanon kv.2)) := by
  induction l with
  | nil => rfl
  | cons kv rest ih => cases kv; simp [sortCanonEntries, ih]

/-- C9: `hash_full_state` hashes the canonical encoding of
positions/orders/status/gap-count with every map serialized in
lexicographic key order (first conjunct: the encoder's key-sort is sorted
by `keyLE`), and the hash is insertion-order independent: maps equal as
sets of key-value bindings yield equal hashes (second conjunct). -/
theorem hash_full_state_canonical :
    (∀ es : List (String × CanonValue), List.Sorted keyLE (sortPairs es)) ∧
    (∀ (pos1 pos2 : List (String × ℚ)) (ord1 ord2 : List (String × DataMap))
       (status : String) (gap : Nat),
      pos1.Perm pos2 → (pos1.map Prod.fst).Nodup →
      ord1.Perm ord2 → (ord1.map Prod.fst).Nodup →
      hash_full_state pos1 ord1 status gap = hash_full_state pos2 ord2 status gap) := by
  refine ⟨sortPairs_sorted, ?_⟩
  intro pos1 pos2 ord1 ord2 status gap hpp hpn hop hon
  have hpos : sortPairs (sortCanonEntries (pos1.map fun p => (p.1, CanonValue.q p.2))) =
      sortPairs (sortCanonEntries (pos2.map fun p => (p.1, CanonValue.q p.2))) := by
    rw [sortCanonEntries_eq_map, sortCanonEntries_eq_map, List.map_map, List.map_map]
    refine sortPairs_eq_of_perm (hpp.map _) ?_
    rw [List.map_map]
    exact hpn
  have hord : sortPairs (sortCanonEntries (ord1.map fun o => (o.1, CanonValue.m o.2))) =
      sortPairs (sortCanonEntries (ord2.map fun o => (o.1, CanonValue.m o.2))) := by
    rw [sortCanonEntries_eq_map, sortCanonEntries_eq_map, List.map_map, List.map_map]
    refine sortPairs_eq_of_perm (hop.map _) ?_
    rw [List.map_map]
    exact hon
  unfold hash_full_state stateValue
  simp only [sortCanon, sortCanonEntries, hpos, hord]

/-- Witness for C9: the same two positions inserted in opposite orders
hash identically. -/
theorem hash_full_state_canonical_witness :
    hash_full_state w9Pos1 w9Ord ("CONNECTED") 0 =
      hash_full_state w9Pos2 w9Ord ("CONNECTED") 0 :=
  hash_full_state_canonical.2 w9Pos1 w9Pos2 w9Ord w9Ord ("CONNECTED") 0
    (List.Perm.swap (("b"), 2) (("a"), 1) []) (by decide)
    (List.Perm.refl w9Ord) (by decide)

end OmniTrade
